import Mathlib

/-!
# Verification of the cryptotrading hypermedia API (`src/app.py`)

A shallow embedding of the Flask/Mason hypermedia service in `src/app.py`:
JSON values, Mason documents (Python dicts preserving insertion order),
the `MasonBuilder` operations (`add_control`, `add_error`; the `utils`
module is not part of the sources, so these are modelled from the spec),
the JSON-schema guards, and the request handlers relevant to the claims.
-/

set_option autoImplicit false

namespace CryptoApi

/-- JSON-compatible values as produced/consumed by the service.  Numbers
carry a rational value together with a flag telling whether the JSON
literal was an integer (jsonschema distinguishes `integer` from `number`). -/
inductive JVal where
  | jnull : JVal
  | jbool : Bool → JVal
  | jnum : Rat → Bool → JVal
  | jstr : String → JVal
  | jarr : List JVal → JVal
  | jobj : List (String × JVal) → JVal

/-- A Mason document: a Python dict from string keys to JSON values,
represented as an association list in insertion order. -/
abbrev Doc := List (String × JVal)

/-- Python-dict lookup (`d[k]`); `none` models a `KeyError`. -/
def dictLookup : Doc → String → Option JVal
  | [], _ => none
  | (k', v') :: rest, k => if k' = k then some v' else dictLookup rest k

/-- Python-dict assignment (`d[k] = v`): overwrite in place if the key is
present (insertion order kept), otherwise append at the end. -/
def dictInsert : Doc → String → JVal → Doc
  | [], k, v => [(k, v)]
  | (k', v') :: rest, k, v =>
      if k' = k then (k, v) :: rest else (k', v') :: dictInsert rest k v

/-- Python truthiness of a JSON value (`not request.json` in the source):
`None`, `False`, `0`, `""`, `[]` and `{}` are falsy. -/
def jsonTruthy : JVal → Bool
  | .jnull => false
  | .jbool b => b
  | .jnum q _ => q ≠ 0
  | .jstr s => s ≠ ""
  | .jarr xs => !xs.isEmpty
  | .jobj fields => !fields.isEmpty

/-- The type a JSON-schema property declares (the schemas of
`MasonControls` use only `string`, `integer` and `number`). -/
inductive PropType where
  | pstring : PropType
  | pinteger : PropType
  | pnumber : PropType
deriving DecidableEq

/-- Wire name of a property type. -/
def PropType.typeName : PropType → String
  | .pstring => "string"
  | .pinteger => "integer"
  | .pnumber => "number"

/-- A JSON schema of the shape used by `MasonControls`: an object schema
with a `required` list and typed, documented properties. -/
structure JSchema where
  required : List String
  properties : List (String × String × PropType)
deriving DecidableEq

/-- Embeds `MasonControls.account_schema` (src/app.py lines 37-58). -/
def account_schema : JSchema :=
  { required := ["accountname", "api_public", "api_secret"],
    properties :=
      [("accountname", "name of the account", .pstring),
       ("api_public", "public part of the api-key", .pstring),
       ("api_secret", "secret part of the api-key", .pstring)] }

/-- Embeds `MasonControls.order_schema` (src/app.py lines 60-85). -/
def order_schema : JSchema :=
  { required := ["symbol", "size", "price", "side"],
    properties :=
      [("symbol", "Order trading pair symbol", .pstring),
       ("size", "The size of the order in contract", .pinteger),
       ("price", "price of the order", .pnumber),
       ("side", "side of the order", .pstring)] }

/-- Embeds `MasonControls.position_schema` (src/app.py lines 87-99). -/
def position_schema : JSchema :=
  { required := ["leverage"],
    properties := [("leverage", "Leverage of the position", .pnumber)] }

/-- Rendering of a `JSchema` as the JSON object the source builds. -/
def schemaToJVal (s : JSchema) : JVal :=
  .jobj [("type", .jstr "object"),
         ("required", .jarr (s.required.map .jstr)),
         ("properties", .jobj (s.properties.map
            (fun p => (p.1, .jobj [("description", .jstr p.2.1),
                                   ("type", .jstr p.2.2.typeName)]))))]

/-- Does a JSON value satisfy a declared property type, as the jsonschema
library checks it (`integer` matches integer literals, `number` matches any
numeric literal)? -/
def typeMatches : JVal → PropType → Bool
  | .jstr _, .pstring => true
  | .jnum _ isInt, .pinteger => isInt
  | .jnum _ _, .pnumber => true
  | _, _ => false

/-- Modelled from the spec: JSON-schema validation of request bodies is
delegated to the external jsonschema library (`validate(request.json,
schema)`); absent from the sources.  Checks the object type, the
`required` list, then the property types, returning the first failure as
the validator detail (`str(e)` in the source), `none` on success. -/
def validate (j : JVal) (s : JSchema) : Option String :=
  match j with
  | .jobj fields =>
    match s.required.find? (fun k => (dictLookup fields k).isNone) with
    | some k => some (k ++ " is a required property")
    | none =>
      match s.properties.find? (fun p =>
          match dictLookup fields p.1 with
          | some v => !typeMatches v p.2.2
          | none => false) with
      | some p => some (p.1 ++ " is not of type " ++ p.2.2.typeName)
      | none => none
  | _ => some "request body is not of type object"

/-- A hypermedia control descriptor as passed to `add_control`: target
href, HTTP method (default `GET`), optional encoding, optional schema,
optional title (spec section 3, "Control Descriptor"). -/
structure Ctrl where
  href : String
  method : String := "GET"
  encoding : Option String := none
  schema : Option JSchema := none
  title : Option String := none
deriving DecidableEq

/-- Rendering of a control descriptor inside `@controls`: always `href`
and `method`, plus the optional fields that were given. -/
def ctrlToJVal (c : Ctrl) : JVal :=
  .jobj ([("href", .jstr c.href), ("method", .jstr c.method)]
    ++ (match c.encoding with | some e => [("encoding", JVal.jstr e)] | none => [])
    ++ (match c.schema with | some s => [("schema", schemaToJVal s)] | none => [])
    ++ (match c.title with | some t => [("title", JVal.jstr t)] | none => []))

/-- Modelled from the spec: `MasonBuilder.add_control` (the `utils` module
is absent from the sources).  Inserts/overwrites the control descriptor
under `relation` inside `@controls`; fails (a programming error, modelled
as `none`) if `@controls` exists but is not itself a control map. -/
def add_control (d : Doc) (relation : String) (c : Ctrl) : Option Doc :=
  match dictLookup d "@controls" with
  | none => some (dictInsert d "@controls" (.jobj (dictInsert [] relation (ctrlToJVal c))))
  | some (.jobj cs) =>
      some (dictInsert d "@controls" (.jobj (dictInsert cs relation (ctrlToJVal c))))
  | some _ => none

/-- Modelled from the spec: `MasonBuilder.add_error(title, message)` (the
`utils` module is absent from the sources).  Sets `@error` to
`{"@message": title, "@messages": [message] if message else []}`; the
Python truthiness test makes both `None` and the empty string vanish. -/
def add_error (d : Doc) (title : String) (message : Option String) : Doc :=
  dictInsert d "@error"
    (.jobj [("@message", .jstr title),
            ("@messages", .jarr (match message with
              | some m => if m = "" then [] else [JVal.jstr m]
              | none => []))])

/-- The control names of a document: the keys of its `@controls` object,
in insertion order (`none` when `@controls` is absent or malformed). -/
def ctrlNames (d : Doc) : Option (List String) :=
  match dictLookup d "@controls" with
  | some (.jobj cs) => some (cs.map Prod.fst)
  | _ => none

/-- The descriptor that the `@controls` object of a document maps a relation to. -/
def getCtrl (d : Doc) (relation : String) : Option JVal :=
  match dictLookup d "@controls" with
  | some (.jobj cs) => dictLookup cs relation
  | _ => none

/-! ## Store, requests and responses -/

/-- A `User` row: unique username, unique public key, secret
(spec section 6, persisted state; `database.py` is absent from the sources). -/
structure UserRec where
  id : Nat
  username : String
  api_public : String
  api_secret : String
deriving DecidableEq

/-- An `Orders` row: exchange-assigned identifier, order data, and the
foreign key to the owning account. -/
structure OrderRec where
  order_id : String
  order_size : Int
  order_side : String
  order_symbol : String
  order_price : Rat
  user_id : Nat
deriving DecidableEq

/-- The relational store: the two tables. -/
structure Store where
  users : List UserRec
  orders : List OrderRec
deriving DecidableEq

/-- An incoming HTTP request as the handlers read it: headers, the parsed
JSON body (`request.json`; `none` when the request carries no JSON), and
the query arguments (`request.args`). -/
structure Request where
  headers : List (String × String)
  json : Option JVal := none
  args : List (String × String) := []

/-- Lookup in a string-to-string mapping (headers, query args); `none`
models a `KeyError`. -/
def strLookup : List (String × String) → String → Option String
  | [], _ => none
  | (k', v') :: rest, k => if k' = k then some v' else strLookup rest k

/-- An outgoing response: status code, optional Mason document body,
optional `Location` header. -/
structure HttpResponse where
  status : Nat
  body : Option Doc := none
  location : Option String := none

/-- Embeds `api.url_for` over the route table (src/app.py lines 656-667). -/
def url_for_Accounts : String := "/accounts/"

/-- Route of the `Account` resource. -/
def url_for_Account (apikey : String) : String := "/accounts/" ++ apikey ++ "/"

/-- Route of the `OrdersResource` resource. -/
def url_for_Orders (apikey : String) : String := "/accounts/" ++ apikey ++ "/orders/"

/-- Route of the `OrderResource` resource. -/
def url_for_Order (apikey orderid : String) : String :=
  "/accounts/" ++ apikey ++ "/orders/" ++ orderid ++ "/"

/-- Route of the `PriceAction` resource. -/
def url_for_PriceAction : String := "/priceaction/"

/-- Route of the `Positions` resource. -/
def url_for_Positions (apikey : String) : String := "/accounts/" ++ apikey ++ "/positions/"

/-- Route of the `Position` resource. -/
def url_for_Position (apikey symbol : String) : String :=
  "/accounts/" ++ apikey ++ "/positions/" ++ symbol ++ "/"

/-- Route of the `OrderBook` resource. -/
def url_for_OrderBook : String := "/orderbook/"

/-- Route of the `TransactionHistory` resource. -/
def url_for_TransactionHistory (apikey : String) : String :=
  "/accounts/" ++ apikey ++ "/history/"

/-- Route of the `AccountBalance` resource. -/
def url_for_AccountBalance (apikey : String) : String :=
  "/accounts/" ++ apikey ++ "/balance/"

/-- Route of the `BucketedPriceAction` resource. -/
def url_for_BucketedPriceAction : String := "/priceaction/bucketed/"

/-- Embeds `create_error_response` (src/app.py lines 669-677): a `MasonBuilder`
initialised with the request path under `resource_url`, then `add_error`. -/
def create_error_response (path : String) (status_code : Nat) (title : String)
    (message : Option String) : HttpResponse :=
  { status := status_code,
    body := some (add_error [("resource_url", .jstr path)] title message) }

/-- Embeds `authorize` (src/app.py lines 268-279): compares the `api_secret`
header with the stored secret; a missing header (`KeyError`) fails. -/
def authorize (model : UserRec) (req : Request) : Bool :=
  match strLookup req.headers "api_secret" with
  | none => false
  | some secret => if secret ≠ model.api_secret then false else true

/-! ## The control catalogue (`MasonControls`, src/app.py lines 101-177) -/

/-- Embeds `add_control_accounts`. -/
def control_accounts : Ctrl :=
  { href := url_for_Accounts, method := "GET",
    title := some "List all the accounts registered" }

/-- Embeds `add_control_account`. -/
def control_account (apikey : String) : Ctrl :=
  { href := url_for_Account apikey, method := "GET", title := some "Login to account" }

/-- Embeds `add_control_orders`. -/
def control_orders (apikey : String) : Ctrl :=
  { href := url_for_Orders apikey, method := "GET", title := some "Get open orders" }

/-- Embeds `add_control_positions`. -/
def control_positions (apikey : String) : Ctrl :=
  { href := url_for_Positions apikey, method := "GET", title := some "Get open positions" }

/-- Embeds `add_control_accountbalance`. -/
def control_accountbalance (apikey : String) : Ctrl :=
  { href := url_for_AccountBalance apikey, method := "GET",
    title := some "Get account balance" }

/-- Embeds `add_control_transactionhistory`. -/
def control_transactionhistory (apikey : String) : Ctrl :=
  { href := url_for_TransactionHistory apikey, method := "GET",
    title := some "Get history of the wallet transactions" }

/-- Embeds `add_control_add_account`. -/
def control_add_account : Ctrl :=
  { href := url_for_Accounts, method := "POST", encoding := some "json",
    title := some "Add account to cryptotrading API", schema := some account_schema }

/-- Embeds `add_control_delete_account`. -/
def control_delete_account (apikey : String) : Ctrl :=
  { href := url_for_Account apikey, method := "DELETE", title := some "delete this account" }

/-- Embeds `add_control_add_order`. -/
def control_add_order (apikey : String) : Ctrl :=
  { href := url_for_Orders apikey, method := "POST", encoding := some "json",
    title := some "Add an order to Cryptotrading API", schema := some order_schema }

/-- Embeds `add_control_delete_order`. -/
def control_delete_order (apikey orderid : String) : Ctrl :=
  { href := url_for_Order apikey orderid, method := "DELETE",
    title := some "delete this order" }

/-- Reading a string field out of a JSON object (`request.json[k]` on a
schema-validated body). -/
def jGetStr (j : JVal) (k : String) : Option String :=
  match j with
  | .jobj fields =>
    match dictLookup fields k with
    | some (.jstr s) => some s
    | _ => none
  | _ => none

/-! ## Request handlers -/

/-- Embeds `Account.get` (src/app.py lines 234-251): look the account up by its
public key (404 when absent), authorize (401 on failure), then answer 200
with the account data and its seven controls. -/
def accountGet (store : Store) (req : Request) (apikey : String) : Option HttpResponse :=
  match store.users.find? (fun u => u.api_public == apikey) with
  | none => some (create_error_response (url_for_Account apikey) 404
      "Account does not exist"
      (some ("Account with api-key " ++ apikey ++ " does not exist.")))
  | some acc =>
    if ¬ authorize acc req then
      some (create_error_response (url_for_Account apikey) 401 "Unauthorized"
        (some "need secret api-key in the http header"))
    else do
      let body : Doc := [("accountname", .jstr acc.username),
                         ("api_public", .jstr acc.api_public),
                         ("api_secret", .jstr acc.api_secret)]
      let body ← add_control body "self" { href := url_for_Account apikey }
      let body ← add_control body "orders-all" (control_orders apikey)
      let body ← add_control body "balance" (control_accountbalance apikey)
      let body ← add_control body "positions-all" (control_positions apikey)
      let body ← add_control body "transactions" (control_transactionhistory apikey)
      let body ← add_control body "delete" (control_delete_account apikey)
      let body ← add_control body "accounts-all" control_accounts
      some { status := 200, body := some body }

/-- Embeds `Account.delete` (src/app.py lines 253-263): same 404 and 401 guards,
then remove the row and answer 204. -/
def accountDelete (store : Store) (req : Request) (apikey : String) :
    Option (HttpResponse × Store) :=
  match store.users.find? (fun u => u.api_public == apikey) with
  | none => some (create_error_response (url_for_Account apikey) 404
      "Account does not exist"
      (some ("Account with api-key " ++ apikey ++ " does not exist.")), store)
  | some acc =>
    if ¬ authorize acc req then
      some (create_error_response (url_for_Account apikey) 401 "Unauthorized"
        (some "No API-key or wrong API-key"), store)
    else
      some ({ status := 204 },
        { store with users := store.users.eraseP (fun u => u.api_public == apikey) })

/-- Embeds `Accounts.post` (src/app.py lines 212-231): body guards (415 when
`not request.json`, 400 on schema failure), then insert the row; a
uniqueness violation (`IntegrityError`) answers 409. -/
def accountsPost (store : Store) (req : Request) : Option (HttpResponse × Store) :=
  match req.json with
  | none => some (create_error_response url_for_Accounts 415 "Unsupported media type"
      (some "Requests must be JSON"), store)
  | some j =>
    if ¬ jsonTruthy j then
      some (create_error_response url_for_Accounts 415 "Unsupported media type"
        (some "Requests must be JSON"), store)
    else
      match validate j account_schema with
      | some e => some (create_error_response url_for_Accounts 400 "Invalid JSON document"
          (some e), store)
      | none => do
        let name ← jGetStr j "accountname"
        let pub ← jGetStr j "api_public"
        let sec ← jGetStr j "api_secret"
        if store.users.any (fun u => u.username == name || u.api_public == pub) then
          some (create_error_response url_for_Accounts 409 "Already exists"
            (some ("Account with name " ++ name ++ " already exists.")), store)
        else
          let newId := (store.users.foldl (fun m u => max m u.id) 0) + 1
          some ({ status := 201, location := some (url_for_Account pub) },
            { store with users := store.users ++
                [{ id := newId, username := name, api_public := pub, api_secret := sec }] })

/-- What the code reads out of the reply of the venue to an order placement
(`json_response` in `OrdersResource.post`). -/
structure VenueOrder where
  orderID : String
  orderQty : Int
  side : String
  symbol : String
  price : Rat

/-- Embeds `OrdersResource.post` (src/app.py lines 353-399): 404/401 guards, the
415/400 body guards, then the venue call (its reply is `venue`) and the
local insert.  A duplicate `order_id` raises an uncaught `IntegrityError`
(modelled `none`); the dead `except ValueError` branch is not modelled. -/
def ordersPost (store : Store) (req : Request) (apikey : String) (venue : VenueOrder) :
    Option (HttpResponse × Store) :=
  match store.users.find? (fun u => u.api_public == apikey) with
  | none => some (create_error_response (url_for_Orders apikey) 404
      "Account does not exist"
      (some ("Account with api-key " ++ apikey ++ " does not exist.")), store)
  | some acc =>
    if ¬ authorize acc req then
      some (create_error_response (url_for_Orders apikey) 401 "Unauthorized"
        (some "No API-key or wrong API-key"), store)
    else
      match req.json with
      | none => some (create_error_response (url_for_Orders apikey) 415
          "Unsupported media type" (some "Requests must be JSON"), store)
      | some j =>
        if ¬ jsonTruthy j then
          some (create_error_response (url_for_Orders apikey) 415
            "Unsupported media type" (some "Requests must be JSON"), store)
        else
          match validate j order_schema with
          | some e => some (create_error_response (url_for_Orders apikey) 400
              "Invalid JSON document" (some e), store)
          | none =>
            if store.orders.any (fun o => o.order_id == venue.orderID) then none
            else
              some ({ status := 201, location := some (url_for_Order apikey venue.orderID) },
                { store with orders := store.orders ++
                    [{ order_id := venue.orderID, order_size := venue.orderQty,
                       order_side := venue.side, order_symbol := venue.symbol,
                       order_price := venue.price, user_id := acc.id }] })

/-- Embeds `OrderResource.get` (src/app.py lines 401-425): 404/401 guards on the
account, then the order is looked up by `order_id` alone
(`Orders.query.filter_by(order_id=orderid)`) — the owning account is not
part of the filter. -/
def orderGet (store : Store) (req : Request) (apikey orderid : String) :
    Option HttpResponse :=
  match store.users.find? (fun u => u.api_public == apikey) with
  | none => some (create_error_response (url_for_Order apikey orderid) 404
      "Account does not exist"
      (some ("Account with api-key " ++ apikey ++ " does not exist.")))
  | some _acc =>
    if ¬ authorize _acc req then
      some (create_error_response (url_for_Order apikey orderid) 401 "Unauthorized"
        (some "No API-key or wrong API-key"))
    else
      match store.orders.find? (fun o => o.order_id == orderid) with
      | none => some (create_error_response (url_for_Order apikey orderid) 404
          "Order does not exist"
          (some ("Order with orderid " ++ orderid ++ " does not exist.")))
      | some order => do
        let body : Doc := [("id", .jstr order.order_id),
                           ("price", .jnum order.order_price false),
                           ("symbol", .jstr order.order_symbol),
                           ("side", .jstr order.order_side),
                           ("size", .jnum (order.order_size : Rat) true)]
        let body ← add_control body "self" { href := url_for_Order apikey order.order_id }
        let body ← add_control body "orders-all" (control_orders apikey)
        let body ← add_control body "delete" (control_delete_order apikey orderid)
        some { status := 200, body := some body }

/-- Embeds `OrderResource.delete` (src/app.py lines 427-458): same guards and the
same account-blind order lookup; the venue reply is never inspected, then
the row is deleted and 204 returned. -/
def orderDelete (store : Store) (req : Request) (apikey orderid : String) :
    Option (HttpResponse × Store) :=
  match store.users.find? (fun u => u.api_public == apikey) with
  | none => some (create_error_response (url_for_Order apikey orderid) 404
      "Account does not exist"
      (some ("Account with api-key " ++ apikey ++ " does not exist.")), store)
  | some acc =>
    if ¬ authorize acc req then
      some (create_error_response (url_for_Order apikey orderid) 401 "Unauthorized"
        (some "No API-key or wrong API-key"), store)
    else
      match store.orders.find? (fun o => o.order_id == orderid) with
      | none => some (create_error_response (url_for_Order apikey orderid) 404
          "Order does not exist"
          (some ("Order with orderid " ++ orderid ++ " does not exist.")), store)
      | some _order =>
        some ({ status := 204 },
          { store with orders := store.orders.eraseP (fun o => o.order_id == orderid) })

/-- Embeds `Position.patch` (src/app.py lines 606-638): 404/401 guards, the
415/400 body guards, then the venue call; `venueStatus` is the status
code of the venue — 400 there answers 400 "Parameter Error", anything else 204. -/
def positionPatch (store : Store) (req : Request) (apikey symbol : String)
    (venueStatus : Nat) : Option HttpResponse :=
  match store.users.find? (fun u => u.api_public == apikey) with
  | none => some (create_error_response (url_for_Position apikey symbol) 404
      "Account does not exist"
      (some ("Account with api-key " ++ apikey ++ " does not exist.")))
  | some _acc =>
    if ¬ authorize _acc req then
      some (create_error_response (url_for_Position apikey symbol) 401 "Unauthorized"
        (some "No API-key or wrong API-key"))
    else
      match req.json with
      | none => some (create_error_response (url_for_Position apikey symbol) 415
          "Unsupported media type" (some "Requests must be JSON"))
      | some j =>
        if ¬ jsonTruthy j then
          some (create_error_response (url_for_Position apikey symbol) 415
            "Unsupported media type" (some "Requests must be JSON"))
        else
          match validate j position_schema with
          | some e => some (create_error_response (url_for_Position apikey symbol) 400
              "Invalid JSON document" (some e))
          | none =>
            if venueStatus = 400 then
              some (create_error_response (url_for_Position apikey symbol) 400
                "Parameter Error" (some "One of the parameters have an invalid value"))
            else
              some { status := 204 }

/-- Embeds `OrderBook.get` (src/app.py lines 469-472): the unimplemented order
book; ignores the whole request and answers 503 with no body. -/
def orderBookGet (_req : Request) : HttpResponse :=
  { status := 503 }

/-- Embeds `BucketedPriceAction.get` (src/app.py lines 499-502): same placeholder. -/
def bucketedPriceActionGet (_req : Request) : HttpResponse :=
  { status := 503 }

/-- Dispatch on the `OrderBook` resource: the class defines only `get`
(src/app.py lines 469-472), so GET reaches it directly and HEAD reaches it
through the framework fallback (werkzeug auto-allows HEAD on GET routes
and flask-restful dispatches a HEAD request to the `get` handler when no
`head` method is defined); `none` means no repository code runs and the
framework answers the request itself (405 Method Not Allowed for other
explicit methods, 200 for the automatic OPTIONS). -/
def orderBookDispatch (method : String) (req : Request) : Option HttpResponse :=
  if method = "GET" then some (orderBookGet req)
  else if method = "HEAD" then some (orderBookGet req)
  else none

/-- Dispatch on the `BucketedPriceAction` resource: only `get` is defined
(src/app.py lines 499-502); same HEAD fallback to the `get` handler. -/
def bucketedPriceActionDispatch (method : String) (req : Request) : Option HttpResponse :=
  if method = "GET" then some (bucketedPriceActionGet req)
  else if method = "HEAD" then some (bucketedPriceActionGet req)
  else none

/-- What the code reads out of one recent trade from the venue. -/
structure Trade where
  symbol : String
  side : String
  size : Int
  price : Rat
deriving DecidableEq

/-- The document one loop iteration of `PriceAction.get` builds for a
trade (src/app.py lines 487-493). -/
def tradeBody (t : Trade) : Option Doc := do
  let body : Doc := [("symbol", .jstr t.symbol), ("side", .jstr t.side),
                     ("size", .jnum (t.size : Rat) true), ("price", .jnum t.price false)]
  let body ← add_control body "buckets"
    { href := url_for_BucketedPriceAction ++ "?\x7btimebucket\x7d",
      title := some "Trades in time buckets" }
  let body ← add_control body "self"
    { href := url_for_PriceAction ++ "?symbol=" ++ t.symbol }
  pure body

/-- Embeds `PriceAction.get` (src/app.py lines 474-497).  `venue` is the venue
call: `none` when `ws.recent_trades()` raises (caught by the bare
`except`), `some trades` otherwise.  Faithful to the source: empty `args`
→ 400; no `symbol` key → `KeyError`, caught → 400; an empty `symbol`
value is falsy, so the `if` body is skipped and the view returns `None`
(no response, modelled `none`); the loop rebinds `body` every iteration,
and with zero trades `body` is unbound (`NameError`, caught → 400). -/
def priceActionGet (req : Request) (venue : Option (List Trade)) : Option HttpResponse :=
  if req.args.isEmpty then
    some (create_error_response url_for_PriceAction 400 "Query Error"
      (some "Missing Query Parameter \"symbol\""))
  else
    match strLookup req.args "symbol" with
    | none => some (create_error_response url_for_PriceAction 400 "Query Error"
        (some "Query Parameter does not exist"))
    | some sym =>
      if sym ≠ "" then
        match venue with
        | none => some (create_error_response url_for_PriceAction 400 "Query Error"
            (some "Query Parameter does not exist"))
        | some trades =>
          match trades.foldl (fun _ t => tradeBody t) none with
          | none => some (create_error_response url_for_PriceAction 400 "Query Error"
              (some "Query Parameter does not exist"))
          | some body => some { status := 200, body := some body }
      else none

/-- The document `tradeBody` produces for a single trade, written out. -/
def pa_trade_doc (t : Trade) : Doc :=
  [("symbol", .jstr t.symbol), ("side", .jstr t.side),
   ("size", .jnum (t.size : Rat) true), ("price", .jnum t.price false),
   ("@controls", .jobj
     [("buckets", ctrlToJVal
        { href := url_for_BucketedPriceAction ++ "?\x7btimebucket\x7d",
          title := some "Trades in time buckets" }),
      ("self", ctrlToJVal
        { href := url_for_PriceAction ++ "?symbol=" ++ t.symbol })])]

/-! ## Concrete fixtures used to instantiate the theorems -/

/-- A sample account. -/
def acc1 : UserRec :=
  { id := 1, username := "alice", api_public := "pk1", api_secret := "sec1" }

/-- A second sample account. -/
def acc2 : UserRec :=
  { id := 2, username := "bob", api_public := "pk2", api_secret := "sec2" }

/-- A sample order owned by the second account. -/
def ord2 : OrderRec :=
  { order_id := "ord-1", order_size := 1, order_side := "Buy",
    order_symbol := "XBTUSD", order_price := 100, user_id := 2 }

/-- A store with the two accounts and the one order. -/
def sampleStore : Store := { users := [acc1, acc2], orders := [ord2] }

/-- A sample trade. -/
def trade1 : Trade := { symbol := "XBTUSD", side := "Buy", size := 5, price := 101 }

/-- A second sample trade. -/
def trade2 : Trade := { symbol := "XBTUSD", side := "Sell", size := 7, price := 102 }

/-! ## Laws of the dict operations -/

/-- Assigning a key makes it readable. -/
@[simp] theorem dictLookup_dictInsert_self (d : Doc) (k : String) (v : JVal) :
    dictLookup (dictInsert d k v) k = some v := by
  induction d with
  | nil => simp [dictInsert, dictLookup]
  | cons p rest ih =>
    obtain ⟨k', v'⟩ := p
    by_cases h : k' = k <;> simp [dictInsert, dictLookup, h, ih]

/-- Assigning the same key twice keeps only the second value. -/
@[simp] theorem dictInsert_dictInsert_same (d : Doc) (k : String) (v w : JVal) :
    dictInsert (dictInsert d k v) k w = dictInsert d k w := by
  induction d with
  | nil => simp [dictInsert]
  | cons p rest ih =>
    obtain ⟨k', v'⟩ := p
    by_cases h : k' = k <;> simp [dictInsert, h, ih]

/-- Claim C8: `add_control` is idempotent under identical arguments
(running it a second time with the same relation and descriptor changes
nothing), and last-write-wins under the same relation with different
descriptors — after `add_control r A` then `add_control r B`, the
`@controls` object of the document maps `r` to the rendering of the descriptor `B`. -/
theorem add_control_idempotent_last_write_wins (d : Doc) (r : String) (A B : Ctrl) :
    ((add_control d r A).bind (fun d₁ => add_control d₁ r A) = add_control d r A) ∧
    (∀ d₁, add_control d r A = some d₁ →
      (add_control d₁ r B).bind (fun d₂ => getCtrl d₂ r) = some (ctrlToJVal B)) := by
  constructor
  · cases h : dictLookup d "@controls" with
    | none => simp [add_control, h]
    | some v =>
      cases v <;> simp [add_control, h]
  · intro d₁ h₁
    cases h : dictLookup d "@controls" with
    | none =>
      rw [add_control, h] at h₁
      simp only [Option.some.injEq] at h₁
      subst h₁
      simp [add_control, getCtrl]
    | some v =>
      cases v <;> rw [add_control, h] at h₁ <;> simp only [Option.some.injEq] at h₁ <;>
        first
          | (subst h₁; simp [add_control, getCtrl])
          | cases h₁

/-- Witness for C8 at concrete inputs: a fresh document, relation `self`,
and two different descriptors. -/
theorem add_control_idempotent_last_write_wins_witness :
    ((add_control [] "self" { href := "/accounts/" }).bind
        (fun d₁ => add_control d₁ "self" { href := "/accounts/" }) =
      add_control [] "self" { href := "/accounts/" }) ∧
    ((add_control [("@controls",
          JVal.jobj [("self", ctrlToJVal { href := "/accounts/" })])] "self"
        { href := "/orderbook/" }).bind
        (fun d₂ => getCtrl d₂ "self") =
      some (ctrlToJVal { href := "/orderbook/" })) := by
  constructor
  · exact (add_control_idempotent_last_write_wins [] "self"
      { href := "/accounts/" } { href := "/orderbook/" }).1
  · exact (add_control_idempotent_last_write_wins [] "self"
      { href := "/accounts/" } { href := "/orderbook/" }).2
      [("@controls", JVal.jobj [("self", ctrlToJVal { href := "/accounts/" })])] rfl

/-! ## The error builder (claim C3) -/

/-- Counterexample to C3 as stated: at a concrete input, the error body
built by `create_error_response` is not a document whose only content is
the `@error` entry — it also carries the `resource_url` field. -/
theorem create_error_response_extra_field :
    ((create_error_response "/accounts/x/" 404 "Account does not exist"
        (some "msg")).body).map (fun d => d.map Prod.fst) =
      some ["resource_url", "@error"] ∧
    (["resource_url", "@error"] : List String) ≠ ["@error"] := by
  exact ⟨rfl, by decide⟩

/-- Claim C3 (amended): every error response built by
`create_error_response` has exactly the two entries `resource_url` (the
request path) and `@error` of shape
`{"@message": title, "@messages": [detail?]}`; the HTTP status class is
carried only by the transport status code (the `status` field), never by
an extra body field. -/
theorem create_error_response_shape (path title : String) (status : Nat)
    (message : Option String) :
    (create_error_response path status title message).status = status ∧
    (create_error_response path status title message).body =
      some [("resource_url", .jstr path),
            ("@error", .jobj [("@message", .jstr title),
              ("@messages", .jarr (match message with
                | some m => if m = "" then [] else [JVal.jstr m]
                | none => []))])] ∧
    (create_error_response path status title message).location = none := by
  exact ⟨rfl, rfl, rfl⟩

/-! ## Authorization -/

/-- Characterisation of `authorize`: it succeeds exactly when the
`api_secret` header is present and equals the stored secret. -/
theorem authorize_eq_true_iff (model : UserRec) (req : Request) :
    authorize model req = true ↔
      strLookup req.headers "api_secret" = some model.api_secret := by
  unfold authorize
  cases h : strLookup req.headers "api_secret" with
  | none => simp
  | some s =>
    by_cases hs : s = model.api_secret <;> simp [hs]

/-! ## Account lookup and deletion of a missing account (claim C5) -/

/-- Claim C5: for GET or DELETE on `/accounts/(apikey)/` where no account
with that public key exists, the response is 404 with kind "Account does
not exist", for every request — any headers, including any `api_secret`
header — because the existence guard runs before the authorization guard. -/
theorem account_missing_404 (store : Store) (req : Request) (apikey : String)
    (h : store.users.find? (fun u => u.api_public == apikey) = none) :
    accountGet store req apikey =
      some (create_error_response (url_for_Account apikey) 404
        "Account does not exist"
        (some ("Account with api-key " ++ apikey ++ " does not exist."))) ∧
    accountDelete store req apikey =
      some (create_error_response (url_for_Account apikey) 404
        "Account does not exist"
        (some ("Account with api-key " ++ apikey ++ " does not exist.")), store) := by
  constructor
  · unfold accountGet
    rw [h]
  · unfold accountDelete
    rw [h]

/-- Witness for C5: the empty store, a request that does carry an
`api_secret` header, and the key `does-not-exist`. -/
theorem account_missing_404_witness :
    accountGet { users := [], orders := [] }
        { headers := [("api_secret", "sec1")] } "does-not-exist" =
      some (create_error_response (url_for_Account "does-not-exist") 404
        "Account does not exist"
        (some ("Account with api-key " ++ "does-not-exist" ++ " does not exist."))) ∧
    accountDelete { users := [], orders := [] }
        { headers := [("api_secret", "sec1")] } "does-not-exist" =
      some (create_error_response (url_for_Account "does-not-exist") 404
        "Account does not exist"
        (some ("Account with api-key " ++ "does-not-exist" ++ " does not exist.")),
        { users := [], orders := [] }) :=
  account_missing_404 { users := [], orders := [] }
    { headers := [("api_secret", "sec1")] } "does-not-exist" rfl

/-! ## Account lookup authorization and controls (claims C1 and C9) -/

/-- Claim C1: on an account that exists, GET `/accounts/(apikey)/` answers
401 whenever the `api_secret` header is missing or differs from the stored
secret, and answers 200 with exactly the seven controls `self`,
`orders-all`, `balance`, `positions-all`, `transactions`, `delete`,
`accounts-all` when it equals the stored secret. -/
theorem account_get_auth (store : Store) (req : Request) (apikey : String)
    (acc : UserRec)
    (hfind : store.users.find? (fun u => u.api_public == apikey) = some acc) :
    (strLookup req.headers "api_secret" ≠ some acc.api_secret →
      (accountGet store req apikey).map HttpResponse.status = some 401) ∧
    (strLookup req.headers "api_secret" = some acc.api_secret →
      (accountGet store req apikey).map HttpResponse.status = some 200 ∧
      (accountGet store req apikey).bind (fun r => r.body.bind ctrlNames) =
        some ["self", "orders-all", "balance", "positions-all", "transactions",
              "delete", "accounts-all"]) := by
  constructor
  · intro hne
    have hauth : authorize acc req = false := by
      cases hb : authorize acc req
      · rfl
      · exact absurd ((authorize_eq_true_iff acc req).mp hb) hne
    unfold accountGet
    rw [hfind]
    simp only [hauth, not_false_eq_true, if_true]
    rfl
  · intro heq
    have hauth : authorize acc req = true := (authorize_eq_true_iff acc req).mpr heq
    unfold accountGet
    rw [hfind]
    simp only [hauth, not_true_eq_false, if_false]
    exact ⟨rfl, rfl⟩

/-- Witness for C1: the sample store; requests with no header, a wrong
secret, and the right secret against account `pk1`. -/
theorem account_get_auth_witness :
    (accountGet sampleStore { headers := [] } "pk1").map HttpResponse.status =
      some 401 ∧
    (accountGet sampleStore { headers := [("api_secret", "wrong")] } "pk1").map
        HttpResponse.status = some 401 ∧
    (accountGet sampleStore { headers := [("api_secret", "sec1")] } "pk1").map
        HttpResponse.status = some 200 ∧
    (accountGet sampleStore { headers := [("api_secret", "sec1")] } "pk1").bind
        (fun r => r.body.bind ctrlNames) =
      some ["self", "orders-all", "balance", "positions-all", "transactions",
            "delete", "accounts-all"] := by
  refine ⟨?_, ?_, ?_, ?_⟩
  · exact (account_get_auth sampleStore { headers := [] } "pk1" acc1 rfl).1
      (by simp [strLookup])
  · exact (account_get_auth sampleStore { headers := [("api_secret", "wrong")] }
      "pk1" acc1 rfl).1 (by simp [strLookup, acc1])
  · exact ((account_get_auth sampleStore { headers := [("api_secret", "sec1")] }
      "pk1" acc1 rfl).2 rfl).1
  · exact ((account_get_auth sampleStore { headers := [("api_secret", "sec1")] }
      "pk1" acc1 rfl).2 rfl).2

/-- Claim C9: a successful GET on `/accounts/(apikey)/` echoes the stored
`api_secret` back as a data field of the 200 body, alongside `accountname`
and `api_public`. -/
theorem account_get_echoes_secret (store : Store) (req : Request) (apikey : String)
    (acc : UserRec)
    (hfind : store.users.find? (fun u => u.api_public == apikey) = some acc)
    (hsec : strLookup req.headers "api_secret" = some acc.api_secret) :
    (accountGet store req apikey).map HttpResponse.status = some 200 ∧
    (accountGet store req apikey).bind
        (fun r => r.body.bind (fun d => dictLookup d "accountname")) =
      some (.jstr acc.username) ∧
    (accountGet store req apikey).bind
        (fun r => r.body.bind (fun d => dictLookup d "api_public")) =
      some (.jstr acc.api_public) ∧
    (accountGet store req apikey).bind
        (fun r => r.body.bind (fun d => dictLookup d "api_secret")) =
      some (.jstr acc.api_secret) := by
  have hauth : authorize acc req = true := (authorize_eq_true_iff acc req).mpr hsec
  unfold accountGet
  rw [hfind]
  simp only [hauth, not_true_eq_false, if_false]
  exact ⟨rfl, rfl, rfl, rfl⟩

/-- Witness for C9: the authorised lookup of `pk1` in the sample store. -/
theorem account_get_echoes_secret_witness :
    (accountGet sampleStore { headers := [("api_secret", "sec1")] } "pk1").map
        HttpResponse.status = some 200 ∧
    (accountGet sampleStore { headers := [("api_secret", "sec1")] } "pk1").bind
        (fun r => r.body.bind (fun d => dictLookup d "accountname")) =
      some (.jstr acc1.username) ∧
    (accountGet sampleStore { headers := [("api_secret", "sec1")] } "pk1").bind
        (fun r => r.body.bind (fun d => dictLookup d "api_public")) =
      some (.jstr acc1.api_public) ∧
    (accountGet sampleStore { headers := [("api_secret", "sec1")] } "pk1").bind
        (fun r => r.body.bind (fun d => dictLookup d "api_secret")) =
      some (.jstr acc1.api_secret) :=
  account_get_echoes_secret sampleStore { headers := [("api_secret", "sec1")] }
    "pk1" acc1 rfl rfl

/-! ## Order lookup ignores the owning account (claim C2) -/

/-- Claim C2: GET and DELETE on `/accounts/(apikey)/orders/(orderid)/`
resolve the order by its identifier alone.  For two existing accounts `A`
and `B` and an order `O` owned by `B`, a request to the order URL under
the key of `A`, carrying the correct secret of `A`, returns the data of
`O` (GET: 200) or deletes `O`
(DELETE: 204, row gone) instead of answering 404. -/
theorem order_lookup_ignores_owner (store : Store) (req : Request)
    (A B : UserRec) (O : OrderRec)
    (hA : store.users.find? (fun u => u.api_public == A.api_public) = some A)
    (_hB : B ∈ store.users)
    (_hAB : A.id ≠ B.id)
    (_hown : O.user_id = B.id)
    (hO : store.orders.find? (fun o => o.order_id == O.order_id) = some O)
    (hsec : strLookup req.headers "api_secret" = some A.api_secret) :
    (orderGet store req A.api_public O.order_id).map HttpResponse.status = some 200 ∧
    (orderGet store req A.api_public O.order_id).bind
        (fun r => r.body.bind (fun d => dictLookup d "id")) = some (.jstr O.order_id) ∧
    (orderDelete store req A.api_public O.order_id).map (fun p => p.1.status) =
      some 204 ∧
    (orderDelete store req A.api_public O.order_id).map (fun p => p.2.orders) =
      some (store.orders.eraseP (fun o => o.order_id == O.order_id)) := by
  have hauth : authorize A req = true := (authorize_eq_true_iff A req).mpr hsec
  refine ⟨?_, ?_, ?_, ?_⟩
  · unfold orderGet
    rw [hA]
    simp only [hauth, not_true_eq_false, if_false]
    rw [hO]
    rfl
  · unfold orderGet
    rw [hA]
    simp only [hauth, not_true_eq_false, if_false]
    rw [hO]
    rfl
  · unfold orderDelete
    rw [hA]
    simp only [hauth, not_true_eq_false, if_false]
    rw [hO]
    rfl
  · unfold orderDelete
    rw [hA]
    simp only [hauth, not_true_eq_false, if_false]
    rw [hO]
    rfl

/-- Witness for C2: in the sample store the order `ord-1` is owned by
`bob` (`pk2`), yet `alice` (`pk1`, with her own correct secret) reads and
deletes it through her own URL. -/
theorem order_lookup_ignores_owner_witness :
    (orderGet sampleStore { headers := [("api_secret", "sec1")] }
        acc1.api_public ord2.order_id).map HttpResponse.status = some 200 ∧
    (orderGet sampleStore { headers := [("api_secret", "sec1")] }
        acc1.api_public ord2.order_id).bind
        (fun r => r.body.bind (fun d => dictLookup d "id")) =
      some (.jstr ord2.order_id) ∧
    (orderDelete sampleStore { headers := [("api_secret", "sec1")] }
        acc1.api_public ord2.order_id).map (fun p => p.1.status) = some 204 ∧
    (orderDelete sampleStore { headers := [("api_secret", "sec1")] }
        acc1.api_public ord2.order_id).map (fun p => p.2.orders) =
      some (sampleStore.orders.eraseP (fun o => o.order_id == ord2.order_id)) :=
  order_lookup_ignores_owner sampleStore { headers := [("api_secret", "sec1")] }
    acc1 acc2 ord2 rfl (by simp [sampleStore]) (by decide) rfl rfl rfl

/-! ## The unimplemented placeholder routes (claim C6) -/

/-- Counterexample to C6 as stated: a POST to `/orderbook/` or to
`/priceaction/bucketed/` never reaches the 503 placeholder handlers —
neither resource defines a handler for any method but `get` (which also
serves HEAD via the framework fallback), so for POST no repository code
produces a response (the framework answers 405). -/
theorem placeholder_post_not_503 :
    (orderBookDispatch "POST" { headers := [] }).map HttpResponse.status ≠
      some 503 ∧
    (bucketedPriceActionDispatch "POST" { headers := [] }).map HttpResponse.status ≠
      some 503 := by
  constructor <;> simp [orderBookDispatch, bucketedPriceActionDispatch]

/-- Claim C6 (amended): the GET handlers of `/orderbook/` and
`/priceaction/bucketed/` answer 503 for every input — any headers, query
string or body, including malformed ones — and a HEAD request reaches the
same handler through the framework fallback and also answers 503; for
every other method the resources define no handler at all, so no
repository code runs and the 503 never arises there (the framework itself
answers such requests: 405 for other explicit methods, 200 for the
automatic OPTIONS). -/
theorem placeholder_routes_503 (req : Request) (method : String) :
    orderBookDispatch "GET" req = some { status := 503 } ∧
    bucketedPriceActionDispatch "GET" req = some { status := 503 } ∧
    orderBookDispatch "HEAD" req = some { status := 503 } ∧
    bucketedPriceActionDispatch "HEAD" req = some { status := 503 } ∧
    (method ≠ "GET" → method ≠ "HEAD" →
      orderBookDispatch method req = none ∧
      bucketedPriceActionDispatch method req = none) := by
  refine ⟨rfl, rfl, rfl, rfl, fun h h2 => ⟨?_, ?_⟩⟩ <;>
    simp [orderBookDispatch, bucketedPriceActionDispatch, orderBookGet,
      bucketedPriceActionGet, h, h2]

/-- Witness for C6: a GET and a HEAD with a malformed body and junk query
answer 503 on both routes; a POST reaches no handler on either. -/
theorem placeholder_routes_503_witness :
    orderBookDispatch "GET"
        { headers := [("api_secret", "junk")], json := some (.jstr "garbage"),
          args := [("bad", "query")] } = some { status := 503 } ∧
    bucketedPriceActionDispatch "GET"
        { headers := [("api_secret", "junk")], json := some (.jstr "garbage"),
          args := [("bad", "query")] } = some { status := 503 } ∧
    orderBookDispatch "HEAD"
        { headers := [("api_secret", "junk")], json := some (.jstr "garbage"),
          args := [("bad", "query")] } = some { status := 503 } ∧
    bucketedPriceActionDispatch "HEAD"
        { headers := [("api_secret", "junk")], json := some (.jstr "garbage"),
          args := [("bad", "query")] } = some { status := 503 } ∧
    orderBookDispatch "POST"
        { headers := [("api_secret", "junk")], json := some (.jstr "garbage"),
          args := [("bad", "query")] } = none ∧
    bucketedPriceActionDispatch "POST"
        { headers := [("api_secret", "junk")], json := some (.jstr "garbage"),
          args := [("bad", "query")] } = none := by
  have h := placeholder_routes_503
    { headers := [("api_secret", "junk")], json := some (.jstr "garbage"),
      args := [("bad", "query")] } "POST"
  exact ⟨h.1, h.2.1, h.2.2.1, h.2.2.2.1,
    (h.2.2.2.2 (by decide) (by decide)).1, (h.2.2.2.2 (by decide) (by decide)).2⟩

/-! ## Price action (claims C7 and C10) -/

/-- One loop iteration of `PriceAction.get` always builds its document. -/
theorem tradeBody_eq (t : Trade) : tradeBody t = some (pa_trade_doc t) := rfl

/-- The rebinding loop of `PriceAction.get` keeps only the document of the
last trade, whatever the initial binding. -/
theorem foldl_tradeBody_eq_getLast (trades : List Trade) (t : Trade)
    (init : Option Doc) (h : trades.getLast? = some t) :
    trades.foldl (fun _ tr => some (pa_trade_doc tr)) init = some (pa_trade_doc t) := by
  induction trades generalizing init with
  | nil => simp at h
  | cons x rest ih =>
    cases rest with
    | nil =>
      simp only [List.getLast?_singleton, Option.some.injEq] at h
      subst h
      rfl
    | cons y rest2 =>
      rw [List.getLast?_cons_cons] at h
      simp only [List.foldl]
      exact ih (some (pa_trade_doc x)) h

/-- Counterexample to C7 as stated: the request `?symbol=` (symbol present
but empty — an invalid symbol) makes the handler fall through its `if`
without returning, so the view produces no response at all: neither the
400 nor the 200 outcome the claim promises. -/
theorem priceaction_empty_symbol_no_response :
    priceActionGet { headers := [], args := [("symbol", "")] } (some [trade1]) =
      none ∧
    (priceActionGet { headers := [], args := [("symbol", "")] }
        (some [trade1])).map HttpResponse.status ≠ some 400 ∧
    (priceActionGet { headers := [], args := [("symbol", "")] }
        (some [trade1])).map HttpResponse.status ≠ some 200 := by
  have h : priceActionGet { headers := [], args := [("symbol", "")] }
      (some [trade1]) = none := rfl
  refine ⟨h, ?_, ?_⟩ <;> rw [h] <;> simp

/-- Claim C7 (amended): GET `/priceaction/` answers 400 "Query Error" when
the query string is empty or has no `symbol` key, and also when the venue
call fails or reports no recent trades; it answers 200 when the venue
reports at least one trade; and when `symbol` is present but empty the
handler returns no response at all (the view falls through). -/
theorem priceaction_outcomes (req : Request) (venue : Option (List Trade))
    (sym : String) (trades : List Trade) :
    (req.args = [] →
      priceActionGet req venue = some (create_error_response url_for_PriceAction 400
        "Query Error" (some "Missing Query Parameter \"symbol\""))) ∧
    (req.args ≠ [] → strLookup req.args "symbol" = none →
      priceActionGet req venue = some (create_error_response url_for_PriceAction 400
        "Query Error" (some "Query Parameter does not exist"))) ∧
    (req.args ≠ [] → strLookup req.args "symbol" = some "" →
      priceActionGet req venue = none) ∧
    (req.args ≠ [] → strLookup req.args "symbol" = some sym → sym ≠ "" →
      venue = none →
      priceActionGet req venue = some (create_error_response url_for_PriceAction 400
        "Query Error" (some "Query Parameter does not exist"))) ∧
    (req.args ≠ [] → strLookup req.args "symbol" = some sym → sym ≠ "" →
      venue = some [] →
      priceActionGet req venue = some (create_error_response url_for_PriceAction 400
        "Query Error" (some "Query Parameter does not exist"))) ∧
    (req.args ≠ [] → strLookup req.args "symbol" = some sym → sym ≠ "" →
      venue = some trades → trades ≠ [] →
      (priceActionGet req venue).map HttpResponse.status = some 200) := by
  refine ⟨?_, ?_, ?_, ?_, ?_, ?_⟩
  · intro h
    unfold priceActionGet
    simp [h]
  · intro h hsym
    have hie : req.args.isEmpty = false := by
      cases hq : req.args with
      | nil => exact absurd hq h
      | cons a l => rfl
    unfold priceActionGet
    simp [hie, hsym]
  · intro h hsym
    have hie : req.args.isEmpty = false := by
      cases hq : req.args with
      | nil => exact absurd hq h
      | cons a l => rfl
    unfold priceActionGet
    simp [hie, hsym]
  · intro h hsym hne hv
    have hie : req.args.isEmpty = false := by
      cases hq : req.args with
      | nil => exact absurd hq h
      | cons a l => rfl
    unfold priceActionGet
    simp [hie, hsym, hne, hv]
  · intro h hsym hne hv
    have hie : req.args.isEmpty = false := by
      cases hq : req.args with
      | nil => exact absurd hq h
      | cons a l => rfl
    unfold priceActionGet
    simp [hie, hsym, hne, hv]
  · intro h hsym hne hv htr
    obtain ⟨t, ht⟩ := Option.isSome_iff_exists.mp
      (List.getLast?_isSome.mpr htr)
    have hie : req.args.isEmpty = false := by
      cases hq : req.args with
      | nil => exact absurd hq h
      | cons a l => rfl
    unfold priceActionGet
    simp [hie, hsym, hne, hv, foldl_tradeBody_eq_getLast trades t none ht,
      tradeBody_eq]

/-- Witness for C7: all six arms at concrete requests against the venue
reporting one trade, none, or failing. -/
theorem priceaction_outcomes_witness :
    (priceActionGet { headers := [], args := [] } (some [trade1]) =
      some (create_error_response url_for_PriceAction 400
        "Query Error" (some "Missing Query Parameter \"symbol\""))) ∧
    (priceActionGet { headers := [], args := [("other", "1")] } (some [trade1]) =
      some (create_error_response url_for_PriceAction 400
        "Query Error" (some "Query Parameter does not exist"))) ∧
    (priceActionGet { headers := [], args := [("symbol", "")] } (some [trade1]) =
      none) ∧
    (priceActionGet { headers := [], args := [("symbol", "XBTUSD")] } none =
      some (create_error_response url_for_PriceAction 400
        "Query Error" (some "Query Parameter does not exist"))) ∧
    (priceActionGet { headers := [], args := [("symbol", "XBTUSD")] } (some []) =
      some (create_error_response url_for_PriceAction 400
        "Query Error" (some "Query Parameter does not exist"))) ∧
    ((priceActionGet { headers := [], args := [("symbol", "XBTUSD")] }
        (some [trade1])).map HttpResponse.status = some 200) := by
  refine ⟨?_, ?_, ?_, ?_, ?_, ?_⟩
  · exact (priceaction_outcomes { headers := [], args := [] } (some [trade1])
      "XBTUSD" [trade1]).1 rfl
  · exact (priceaction_outcomes { headers := [], args := [("other", "1")] }
      (some [trade1]) "XBTUSD" [trade1]).2.1 (List.cons_ne_nil _ _) rfl
  · exact (priceaction_outcomes { headers := [], args := [("symbol", "")] }
      (some [trade1]) "XBTUSD" [trade1]).2.2.1 (List.cons_ne_nil _ _) rfl
  · exact (priceaction_outcomes { headers := [], args := [("symbol", "XBTUSD")] }
      none "XBTUSD" [trade1]).2.2.2.1 (List.cons_ne_nil _ _) rfl (by decide) rfl
  · exact (priceaction_outcomes { headers := [], args := [("symbol", "XBTUSD")] }
      (some []) "XBTUSD" [trade1]).2.2.2.2.1 (List.cons_ne_nil _ _) rfl (by decide) rfl
  · exact (priceaction_outcomes { headers := [], args := [("symbol", "XBTUSD")] }
      (some [trade1]) "XBTUSD" [trade1]).2.2.2.2.2 (List.cons_ne_nil _ _) rfl
      (by decide) rfl (List.cons_ne_nil _ _)

/-- Claim C10: when GET `/priceaction/` succeeds with a non-empty
recent-trades list, the response body is exactly the document of the last
trade of the list from the venue — each loop iteration overwrites `body`, so the
earlier trades never appear in the response. -/
theorem priceaction_last_trade_only (req : Request) (sym : String)
    (trades : List Trade) (t : Trade)
    (hargs : req.args ≠ []) (hsym : strLookup req.args "symbol" = some sym)
    (hne : sym ≠ "") (hlast : trades.getLast? = some t) :
    priceActionGet req (some trades) =
      some { status := 200, body := some (pa_trade_doc t) } := by
  have hie : req.args.isEmpty = false := by
    cases hq : req.args with
    | nil => exact absurd hq hargs
    | cons a l => rfl
  unfold priceActionGet
  simp [hie, hsym, hne, foldl_tradeBody_eq_getLast trades t none hlast,
    tradeBody_eq]

/-- Witness for C10: two trades from the venue; the body is the second
document of the second trade; the first trade is dropped. -/
theorem priceaction_last_trade_only_witness :
    priceActionGet { headers := [], args := [("symbol", "XBTUSD")] }
        (some [trade1, trade2]) =
      some { status := 200, body := some (pa_trade_doc trade2) } :=
  priceaction_last_trade_only { headers := [], args := [("symbol", "XBTUSD")] }
    "XBTUSD" [trade1, trade2] trade2 (List.cons_ne_nil _ _) rfl (by decide) rfl

/-! ## Request body guards (claim C4) -/

/-- Counterexample to C4 as stated: a present body `{}` fails the account
schema, so by the claim POST `/accounts/` should answer 400 — but
`not request.json` is true for an empty JSON object (Python truthiness),
so the code answers 415. -/
theorem body_guard_truthiness_counterexample :
    (accountsPost { users := [], orders := [] }
        { headers := [], json := some (.jobj []) }).map (fun p => p.1.status) =
      some 415 ∧
    validate (.jobj []) account_schema =
      some ("accountname" ++ " is a required property") ∧
    (415 : Nat) ≠ 400 := by
  exact ⟨rfl, rfl, by decide⟩

/-- Claim C4 (amended): for the three body-carrying operations (POST
`/accounts/`, POST `/accounts/(apikey)/orders/`, PATCH
`/accounts/(apikey)/positions/(symbol)/`), after the earlier guards pass:
a missing body — or a present body whose JSON value is falsy (empty
object, empty array, `0`, `false`, `null`, empty string) — answers 415
"Unsupported media type", and a present truthy body failing the relevant
schema answers 400 "Invalid JSON document" whose message is the validator
detail, in that guard order. -/
theorem body_guards (store : Store) (req : Request) (apikey symbol : String)
    (acc : UserRec) (venue : VenueOrder) (vs : Nat)
    (hfind : store.users.find? (fun u => u.api_public == apikey) = some acc)
    (hsec : strLookup req.headers "api_secret" = some acc.api_secret) :
    ((req.json = none ∨ ∃ j, req.json = some j ∧ jsonTruthy j = false) →
      (accountsPost store req).map Prod.fst =
        some (create_error_response url_for_Accounts 415 "Unsupported media type"
          (some "Requests must be JSON")) ∧
      (ordersPost store req apikey venue).map Prod.fst =
        some (create_error_response (url_for_Orders apikey) 415
          "Unsupported media type" (some "Requests must be JSON")) ∧
      positionPatch store req apikey symbol vs =
        some (create_error_response (url_for_Position apikey symbol) 415
          "Unsupported media type" (some "Requests must be JSON"))) ∧
    (∀ j e, req.json = some j → jsonTruthy j = true →
      (validate j account_schema = some e →
        (accountsPost store req).map Prod.fst =
          some (create_error_response url_for_Accounts 400 "Invalid JSON document"
            (some e))) ∧
      (validate j order_schema = some e →
        (ordersPost store req apikey venue).map Prod.fst =
          some (create_error_response (url_for_Orders apikey) 400
            "Invalid JSON document" (some e))) ∧
      (validate j position_schema = some e →
        positionPatch store req apikey symbol vs =
          some (create_error_response (url_for_Position apikey symbol) 400
            "Invalid JSON document" (some e)))) := by
  have hauth : authorize acc req = true := (authorize_eq_true_iff acc req).mpr hsec
  constructor
  · rintro (hn | ⟨j, hj, hf⟩)
    · refine ⟨?_, ?_, ?_⟩
      · unfold accountsPost
        rw [hn]
        rfl
      · unfold ordersPost
        rw [hfind]
        simp only [hauth, not_true_eq_false, if_false]
        rw [hn]
        rfl
      · unfold positionPatch
        rw [hfind]
        simp only [hauth, not_true_eq_false, if_false]
        rw [hn]
    · refine ⟨?_, ?_, ?_⟩
      · unfold accountsPost
        rw [hj]
        simp [hf]
      · unfold ordersPost
        rw [hfind]
        simp only [hauth, not_true_eq_false, if_false]
        rw [hj]
        simp [hf]
      · unfold positionPatch
        rw [hfind]
        simp only [hauth, not_true_eq_false, if_false]
        rw [hj]
        simp [hf]
  · intro j e hj ht
    refine ⟨?_, ?_, ?_⟩
    · intro hval
      unfold accountsPost
      rw [hj]
      simp only [ht, not_true_eq_false, if_false]
      rw [hval]
      rfl
    · intro hval
      unfold ordersPost
      rw [hfind]
      simp only [hauth, not_true_eq_false, if_false]
      rw [hj]
      simp only [ht, not_true_eq_false, if_false]
      rw [hval]
      rfl
    · intro hval
      unfold positionPatch
      rw [hfind]
      simp only [hauth, not_true_eq_false, if_false]
      rw [hj]
      simp only [ht, not_true_eq_false, if_false]
      rw [hval]

/-- Witness for C4: an authorised account `pk1`; a request with no JSON, a
request with the falsy body `{}`, and a request with the truthy but
schema-invalid body `{"junk": 1}` against each of the three schemas. -/
theorem body_guards_witness :
    ((accountsPost { users := [acc1], orders := [] }
        { headers := [("api_secret", "sec1")], json := none }).map Prod.fst =
      some (create_error_response url_for_Accounts 415 "Unsupported media type"
        (some "Requests must be JSON"))) ∧
    ((ordersPost { users := [acc1], orders := [] }
        { headers := [("api_secret", "sec1")], json := none } "pk1"
        { orderID := "o1", orderQty := 1, side := "Buy", symbol := "XBTUSD",
          price := 100 }).map Prod.fst =
      some (create_error_response (url_for_Orders "pk1") 415
        "Unsupported media type" (some "Requests must be JSON"))) ∧
    (positionPatch { users := [acc1], orders := [] }
        { headers := [("api_secret", "sec1")], json := none } "pk1" "XBTUSD" 200 =
      some (create_error_response (url_for_Position "pk1" "XBTUSD") 415
        "Unsupported media type" (some "Requests must be JSON"))) ∧
    ((accountsPost { users := [acc1], orders := [] }
        { headers := [("api_secret", "sec1")], json := some (.jobj []) }).map
          Prod.fst =
      some (create_error_response url_for_Accounts 415 "Unsupported media type"
        (some "Requests must be JSON"))) ∧
    ((accountsPost { users := [acc1], orders := [] }
        { headers := [("api_secret", "sec1")],
          json := some (.jobj [("junk", .jnum 1 true)]) }).map Prod.fst =
      some (create_error_response url_for_Accounts 400 "Invalid JSON document"
        (some ("accountname" ++ " is a required property")))) ∧
    ((ordersPost { users := [acc1], orders := [] }
        { headers := [("api_secret", "sec1")],
          json := some (.jobj [("junk", .jnum 1 true)]) } "pk1"
        { orderID := "o1", orderQty := 1, side := "Buy", symbol := "XBTUSD",
          price := 100 }).map Prod.fst =
      some (create_error_response (url_for_Orders "pk1") 400
        "Invalid JSON document" (some ("symbol" ++ " is a required property")))) ∧
    (positionPatch { users := [acc1], orders := [] }
        { headers := [("api_secret", "sec1")],
          json := some (.jobj [("junk", .jnum 1 true)]) } "pk1" "XBTUSD" 200 =
      some (create_error_response (url_for_Position "pk1" "XBTUSD") 400
        "Invalid JSON document"
        (some ("leverage" ++ " is a required property")))) := by
  refine ⟨?_, ?_, ?_, ?_, ?_, ?_, ?_⟩
  · exact ((body_guards { users := [acc1], orders := [] }
      { headers := [("api_secret", "sec1")], json := none } "pk1" "XBTUSD" acc1
      { orderID := "o1", orderQty := 1, side := "Buy", symbol := "XBTUSD",
        price := 100 } 200 rfl rfl).1 (Or.inl rfl)).1
  · exact ((body_guards { users := [acc1], orders := [] }
      { headers := [("api_secret", "sec1")], json := none } "pk1" "XBTUSD" acc1
      { orderID := "o1", orderQty := 1, side := "Buy", symbol := "XBTUSD",
        price := 100 } 200 rfl rfl).1 (Or.inl rfl)).2.1
  · exact ((body_guards { users := [acc1], orders := [] }
      { headers := [("api_secret", "sec1")], json := none } "pk1" "XBTUSD" acc1
      { orderID := "o1", orderQty := 1, side := "Buy", symbol := "XBTUSD",
        price := 100 } 200 rfl rfl).1 (Or.inl rfl)).2.2
  · exact ((body_guards { users := [acc1], orders := [] }
      { headers := [("api_secret", "sec1")], json := some (.jobj []) } "pk1"
      "XBTUSD" acc1
      { orderID := "o1", orderQty := 1, side := "Buy", symbol := "XBTUSD",
        price := 100 } 200 rfl rfl).1 (Or.inr ⟨.jobj [], rfl, rfl⟩)).1
  · exact (((body_guards { users := [acc1], orders := [] }
      { headers := [("api_secret", "sec1")],
        json := some (.jobj [("junk", .jnum 1 true)]) } "pk1" "XBTUSD" acc1
      { orderID := "o1", orderQty := 1, side := "Buy", symbol := "XBTUSD",
        price := 100 } 200 rfl rfl).2 (.jobj [("junk", .jnum 1 true)])
      ("accountname" ++ " is a required property") rfl rfl).1 rfl)
  · exact (((body_guards { users := [acc1], orders := [] }
      { headers := [("api_secret", "sec1")],
        json := some (.jobj [("junk", .jnum 1 true)]) } "pk1" "XBTUSD" acc1
      { orderID := "o1", orderQty := 1, side := "Buy", symbol := "XBTUSD",
        price := 100 } 200 rfl rfl).2 (.jobj [("junk", .jnum 1 true)])
      ("symbol" ++ " is a required property") rfl rfl).2.1 rfl)
  · exact (((body_guards { users := [acc1], orders := [] }
      { headers := [("api_secret", "sec1")],
        json := some (.jobj [("junk", .jnum 1 true)]) } "pk1" "XBTUSD" acc1
      { orderID := "o1", orderQty := 1, side := "Buy", symbol := "XBTUSD",
        price := 100 } 200 rfl rfl).2 (.jobj [("junk", .jnum 1 true)])
      ("leverage" ++ " is a required property") rfl rfl).2.2 rfl)

end CryptoApi
